import Mathlib

/-!
Shallow embedding of `src/services/CameraController.py` (CameraMotionRig).

The joystick-conditioning pipeline, the send dispatcher, the discrete-command
handlers, the serial read-thread supervisor and the port locator are embedded
as Lean definitions.  Python floats are modelled as real numbers, Python ints
as `ℤ`/`ℕ`; `int(x)` (truncation toward zero) is `pyInt`.  Wall-clock time
and serial I/O are inputs: each processed event carries the value `time.time()`
returned at line 666, and serial reads/probe replies are supplied by
environment parameters.
-/

namespace CameraRig

/-! ### String formatting helpers (computable) -/

/-- Line 308: `f"j,{int(yaw)},{int(pitch)},{int(zoom)}\n"` with integer
arguments. -/
def joystick_cmd_string (yaw pitch zoom : ℤ) : String :=
  "j," ++ toString yaw ++ "," ++ toString pitch ++ "," ++ toString zoom ++ "\n"

noncomputable section

/-! ### Module constants (lines 23-55, 418-420, 637, 676) -/

def JOYSTICK_MAX_INT : ℝ := 32768
def JOYSTICK_SMOOTHING : ℝ := 0.3
def MIN_SEND_INTERVAL : ℝ := 0.05
def JOYSTICK_SEND_THRESHOLD : ℝ := 15
def JOYSTICK_CURVE_EXPONENT : ℝ := 2.5
def JOYSTICK_CURVE_EXPONENT_ZOOM : ℝ := 1.5
def JOYSTICK_DEADZONE_YAW : ℝ := 1000
def JOYSTICK_DEADZONE_PITCH : ℝ := 1000
def JOYSTICK_DEADZONE_ZOOM : ℝ := 10
def JOYSTICK_SCALE_YAW : ℝ := 1.0
def JOYSTICK_SCALE_PITCH : ℝ := 0.9
def JOYSTICK_SCALE_ZOOM : ℝ := 1.0
def JOY_MAX_VALUE : ℝ := 32768
def JOY_DEADZONE : ℝ := JOY_MAX_VALUE * 0.06
/-- Line 637: local `zoom_smoothing = 0.6` in the main loop. -/
def zoom_smoothing : ℝ := 0.6
/-- Line 676: local `zoom_threshold = 5` in the main loop. -/
def zoom_threshold : ℝ := 5

/-! ### Signal conditioner (lines 57-86) -/

/-- Lines 57-86.  Deadzone on the raw value, then normalize, then the power
curve `sign * |n| ** JOYSTICK_CURVE_EXPONENT`, scaled back to the original
range.  (`**` on floats is embedded as real `rpow`.) -/
def apply_joystick_curve (value max_value deadzone : ℝ) : ℝ :=
  if |value| < deadzone then 0
  else
    (if 0 ≤ value / max_value then (1 : ℝ) else -1) *
      |value / max_value| ^ JOYSTICK_CURVE_EXPONENT * max_value

/-- Lines 623-642: each axis smoothing step resets the accumulator to `0`
when the conditioned value is inside the deadzone, and otherwise forms the
exponential moving average `a * c + (1 - a) * s_prev`. -/
def smoothWithReset (c s_prev a d : ℝ) : ℝ :=
  if |c| < d then 0 else a * c + (1 - a) * s_prev

/-- Python `int()` on a float: truncation toward zero. -/
def pyInt (x : ℝ) : ℤ := if 0 ≤ x then ⌊x⌋ else ⌈x⌉

/-! ### Main-loop state and events (lines 10-31, 432-449, 452-709)

Only the variables feeding the velocity-command path are kept: `joy_x`
(ABS_X → yaw), `joy_ry` (ABS_RY → pitch), the two triggers (ABS_Z/ABS_RZ →
zoom), the three smoothed accumulators, the three last-transmitted values and
`last_send_time`.  `joy_y`, `joy_rx`, the direction flags and the d-pad
variables are written by the loop but never read on the send path; events
touching only those are `absOther` (the pipeline still runs for them, as it
does for every Absolute event in the source). -/

structure LoopState where
  joy_x : ℝ
  joy_ry : ℝ
  joy_trigger_l : ℝ
  joy_trigger_r : ℝ
  joystick_yaw_smoothed : ℝ
  joystick_pitch_smoothed : ℝ
  joystick_zoom_smoothed : ℝ
  joystick_yaw_last : ℝ
  joystick_pitch_last : ℝ
  joystick_zoom_last : ℝ
  last_send_time : ℝ

/-- All module-level floats start at `0.0` (lines 10-30). -/
def initState : LoopState := ⟨0, 0, 0, 0, 0, 0, 0, 0, 0, 0, 0⟩

inductive AbsEvent where
  | absX (state : ℤ)
  | absRY (state : ℤ)
  | absZ (state : ℤ)
  | absRZ (state : ℤ)
  | absOther

/-- Lines 532-544 (and identically 574-586): stick handling.  Inside the
`JOY_DEADZONE` band the axis variable becomes `0`; outside it becomes
`state / JOY_MAX_VALUE`.  No branch fires when `state` equals the (fractional)
deadzone bound, leaving the old value. -/
def updateStick (s : ℤ) (old : ℝ) : ℝ :=
  if (s : ℝ) < JOY_DEADZONE ∧ -JOY_DEADZONE < (s : ℝ) then 0
  else if (s : ℝ) < -JOY_DEADZONE then (s : ℝ) / JOY_MAX_VALUE
  else if JOY_DEADZONE < (s : ℝ) then (s : ℝ) / JOY_MAX_VALUE
  else old

/-- Lines 518-531: trigger handling, `0` below `5`, else `state / 255`. -/
def updateTrigger (s : ℤ) : ℝ :=
  if (s : ℝ) < 5 then 0 else (s : ℝ) / 255

def applyEvent (st : LoopState) : AbsEvent → LoopState
  | .absX s => { st with joy_x := updateStick s st.joy_x }
  | .absRY s => { st with joy_ry := updateStick s st.joy_ry }
  | .absZ s => { st with joy_trigger_l := updateTrigger s }
  | .absRZ s => { st with joy_trigger_r := updateTrigger s }
  | .absOther => st

/-! ### Per-tick conditioning pipeline (lines 594-647)

The local variables of one pass of the Absolute-event block, as functions of
the state after the event update. -/

/-- Line 595. -/
def joystick_yaw_raw (st : LoopState) : ℝ := st.joy_x * JOYSTICK_MAX_INT

/-- Line 596. -/
def joystick_pitch_raw (st : LoopState) : ℝ := st.joy_ry * JOYSTICK_MAX_INT

/-- Line 605. -/
def trigger_diff (st : LoopState) : ℝ := st.joy_trigger_r - st.joy_trigger_l

/-- Lines 608-614: zoom is deadzoned on the normalized trigger difference and
then scaled *linearly* to the full joystick range — `apply_joystick_curve` is
not applied to it. -/
def joystick_zoom_raw_scaled (st : LoopState) : ℝ :=
  if |trigger_diff st| < JOYSTICK_DEADZONE_ZOOM / JOYSTICK_MAX_INT then 0
  else trigger_diff st * JOYSTICK_MAX_INT

/-- Line 617. -/
def joystick_yaw_curved (st : LoopState) : ℝ :=
  apply_joystick_curve (joystick_yaw_raw st) JOYSTICK_MAX_INT JOYSTICK_DEADZONE_YAW

/-- Line 618. -/
def joystick_pitch_curved (st : LoopState) : ℝ :=
  apply_joystick_curve (joystick_pitch_raw st) JOYSTICK_MAX_INT JOYSTICK_DEADZONE_PITCH

/-- Lines 623-627. -/
def yawSmoothedNext (st : LoopState) : ℝ :=
  smoothWithReset (joystick_yaw_curved st) st.joystick_yaw_smoothed
    JOYSTICK_SMOOTHING JOYSTICK_DEADZONE_YAW

/-- Lines 629-633. -/
def pitchSmoothedNext (st : LoopState) : ℝ :=
  smoothWithReset (joystick_pitch_curved st) st.joystick_pitch_smoothed
    JOYSTICK_SMOOTHING JOYSTICK_DEADZONE_PITCH

/-- Lines 637-642. -/
def zoomSmoothedNext (st : LoopState) : ℝ :=
  smoothWithReset (joystick_zoom_raw_scaled st) st.joystick_zoom_smoothed
    zoom_smoothing JOYSTICK_DEADZONE_ZOOM

/-- Line 645. -/
def yawScaledNext (st : LoopState) : ℝ := yawSmoothedNext st * JOYSTICK_SCALE_YAW

/-- Line 646. -/
def pitchScaledNext (st : LoopState) : ℝ := pitchSmoothedNext st * JOYSTICK_SCALE_PITCH

/-- Line 647: `joystick_zoom_scaled = joystick_zoom_smoothed` (already scaled). -/
def zoomScaledNext (st : LoopState) : ℝ := zoomSmoothedNext st

/-- Line 652. -/
def yaw_deadzone_scaled : ℝ := JOYSTICK_DEADZONE_YAW * JOYSTICK_SCALE_YAW

/-- Line 653. -/
def pitch_deadzone_scaled : ℝ := JOYSTICK_DEADZONE_PITCH * JOYSTICK_SCALE_PITCH

/-- Line 655. -/
def zoom_deadzone_scaled : ℝ := JOYSTICK_DEADZONE_ZOOM

/-- Line 661. -/
abbrev yawEntered (st : LoopState) : Prop :=
  ¬ |st.joystick_yaw_last| < yaw_deadzone_scaled ∧
    |yawScaledNext st| < yaw_deadzone_scaled

/-- Line 662. -/
abbrev pitchEntered (st : LoopState) : Prop :=
  ¬ |st.joystick_pitch_last| < pitch_deadzone_scaled ∧
    |pitchScaledNext st| < pitch_deadzone_scaled

/-- Line 663. -/
abbrev zoomEntered (st : LoopState) : Prop :=
  ¬ |st.joystick_zoom_last| < zoom_deadzone_scaled ∧
    |zoomScaledNext st| < zoom_deadzone_scaled

/-- Line 683. -/
abbrev enteredAny (st : LoopState) : Prop :=
  yawEntered st ∨ pitchEntered st ∨ zoomEntered st

/-- Lines 665-684: `should_send` — the rate-limited change gate, or any
deadzone-entry edge (which bypasses the rate limit). -/
abbrev shouldSend (st : LoopState) (t : ℝ) : Prop :=
  (MIN_SEND_INTERVAL ≤ t - st.last_send_time ∧
    (JOYSTICK_SEND_THRESHOLD < |yawScaledNext st - st.joystick_yaw_last| ∨
     JOYSTICK_SEND_THRESHOLD < |pitchScaledNext st - st.joystick_pitch_last| ∨
     zoom_threshold < |zoomScaledNext st - st.joystick_zoom_last|)) ∨
  enteredAny st

/-- Lines 686-691: axes that entered their deadzone are forced to exactly `0`. -/
def sentYaw (st : LoopState) : ℝ := if yawEntered st then 0 else yawScaledNext st

def sentPitch (st : LoopState) : ℝ := if pitchEntered st then 0 else pitchScaledNext st

def sentZoom (st : LoopState) : ℝ := if zoomEntered st then 0 else zoomScaledNext st

/-- Lines 694-696: the integers handed to `send_joystick_values`. -/
def sentTriple (st : LoopState) : ℤ × ℤ × ℤ :=
  (pyInt (sentYaw st), pyInt (sentPitch st), pyInt (sentZoom st))

/-- State after a tick that does not send: the smoothed accumulators are
updated (lines 623-642), the last-transmitted values and `last_send_time`
keep their values. -/
def coastState (st : LoopState) : LoopState :=
  { st with
    joystick_yaw_smoothed := yawSmoothedNext st
    joystick_pitch_smoothed := pitchSmoothedNext st
    joystick_zoom_smoothed := zoomSmoothedNext st }

/-- State after a tick that sends (lines 697-700): additionally the
last-transmitted values become the (possibly forced-zero) scaled values and
`last_send_time` becomes the current time. -/
def sendState (st : LoopState) (t : ℝ) : LoopState :=
  { coastState st with
    joystick_yaw_last := sentYaw st
    joystick_pitch_last := sentPitch st
    joystick_zoom_last := sentZoom st
    last_send_time := t }

/-- One pass of the Absolute-event pipeline (lines 594-709) for a state in
which the event has already been applied, at wall-clock time `t`. -/
def loopTick (st : LoopState) (t : ℝ) : LoopState × Option (ℤ × ℤ × ℤ) :=
  if shouldSend st t then (sendState st t, some (sentTriple st))
  else (coastState st, none)

/-- A transmitted velocity command: its send time, whether some axis entered
its deadzone on that tick (the rate-limit bypass), and the integer triple. -/
structure SendRec where
  time : ℝ
  edge : Prop
  cmd : ℤ × ℤ × ℤ

/-- The whole main loop over a list of Absolute events, each paired with the
`time.time()` value observed on its tick; returns the transmitted commands in
order.  This inlines `loopTick` (same `shouldSend`/`sendState`/`coastState`
split). -/
def runLoop : LoopState → List (AbsEvent × ℝ) → List SendRec
  | _, [] => []
  | st, (ev, t) :: rest =>
    let st1 := applyEvent st ev
    if shouldSend st1 t then
      ⟨t, enteredAny st1, sentTriple st1⟩ :: runLoop (sendState st1 t) rest
    else runLoop (coastState st1) rest

/-! ### Bounds used for the range invariant (claim about command fields) -/

/-- Physical ranges of the evdev states the loop consumes: sticks report
within `±32768`, triggers within `0..255`. -/
def EvBounded : AbsEvent → Prop
  | .absX s => |s| ≤ 32768
  | .absRY s => |s| ≤ 32768
  | .absZ s => 0 ≤ s ∧ s ≤ 255
  | .absRZ s => 0 ≤ s ∧ s ≤ 255
  | .absOther => True

/-- Reachable-state bounds: normalized sticks in `[-1, 1]`, triggers in
`[0, 1]`, smoothed accumulators within the full integer range. -/
def StateBounded (st : LoopState) : Prop :=
  |st.joy_x| ≤ 1 ∧ |st.joy_ry| ≤ 1 ∧
  0 ≤ st.joy_trigger_l ∧ st.joy_trigger_l ≤ 1 ∧
  0 ≤ st.joy_trigger_r ∧ st.joy_trigger_r ≤ 1 ∧
  |st.joystick_yaw_smoothed| ≤ 32768 ∧
  |st.joystick_pitch_smoothed| ≤ 32768 ∧
  |st.joystick_zoom_smoothed| ≤ 32768

/-! ### Definitions for the zoom-pipeline and effective-deadzone claims -/

/-- Follows the words of the specification (§4.4 last paragraph): the zoom
raw-conditioning stage the spec describes, i.e. the pan/tilt power curve with
the zoom deadzone and the gentler zoom exponent `1.5`.  Used only to compare
with `joystick_zoom_raw_scaled`, which is what the code actually computes. -/
def zoomCurveClaimed (value : ℝ) : ℝ :=
  if |value| < JOYSTICK_DEADZONE_ZOOM then 0
  else
    (if 0 ≤ value / JOYSTICK_MAX_INT then (1 : ℝ) else -1) *
      |value / JOYSTICK_MAX_INT| ^ JOYSTICK_CURVE_EXPONENT_ZOOM * JOYSTICK_MAX_INT

/-- The raw-sample magnitude below which the curved pan/tilt value stays
inside the deadzone: `R * (d / R) ^ (1 / e)`. -/
def effectiveZeroThreshold : ℝ :=
  JOYSTICK_MAX_INT *
    (JOYSTICK_DEADZONE_YAW / JOYSTICK_MAX_INT) ^ (1 / JOYSTICK_CURVE_EXPONENT)

/-- Concrete states used to instantiate the proved properties. -/
def zoomDemoState : LoopState := { initState with joy_trigger_r := 1 / 2 }

def edgeDemoState : LoopState :=
  { initState with joystick_yaw_last := 2000, last_send_time := 100 }

end

/-! ### Discrete (Key) commands (lines 88-93, 457-497) -/

/-- The momentary-control levels and their last-seen levels, plus the
selected preset slot. -/
structure KeyState where
  joy_back : ℤ
  joy_start : ℤ
  joy_bumper_l : ℤ
  joy_bumper_r : ℤ
  arduino_back_last : ℤ
  arduino_start_last : ℤ
  arduino_bumper_l_last : ℤ
  arduino_bumper_r_last : ℤ
  arduino_selected_pos : ℕ
deriving DecidableEq

/-- Initial values: lines 88-93 and 442-446 (levels and last-seen levels `0`,
selected preset `1`). -/
def initKeyState : KeyState := ⟨0, 0, 0, 0, 0, 0, 0, 0, 1⟩

/-- Key events consumed by the handlers at lines 457-473.  The face buttons
set the preset slot ignoring `event.state`. -/
inductive KeyEvent where
  | btnTL (state : ℤ)
  | btnTR (state : ℤ)
  | btnSelect (state : ℤ)
  | btnStart (state : ℤ)
  | btnSouth (state : ℤ)
  | btnEast (state : ℤ)
  | btnNorth (state : ℤ)
  | btnWest (state : ℤ)

/-- Lines 457-473: the per-code level updates. -/
def applyKeyEvent (st : KeyState) : KeyEvent → KeyState
  | .btnTL s => { st with joy_bumper_l := s }
  | .btnTR s => { st with joy_bumper_r := s }
  | .btnSelect s => { st with joy_back := s }
  | .btnStart s => { st with joy_start := s }
  | .btnSouth _ => { st with arduino_selected_pos := 1 }
  | .btnEast _ => { st with arduino_selected_pos := 2 }
  | .btnNorth _ => { st with arduino_selected_pos := 3 }
  | .btnWest _ => { st with arduino_selected_pos := 4 }

/-- Lines 475-497: the four change-detection blocks that run on every Key
event, in source order (HOME, STOP, SAVE, GOTO).  Each block fires whenever
the level differs from the last-seen level and then records the level. -/
def dispatchDiscrete (st : KeyState) : KeyState × List String :=
  let st1 := if st.joy_back ≠ st.arduino_back_last
    then { st with arduino_back_last := st.joy_back } else st
  let c1 := if st.joy_back ≠ st.arduino_back_last then ["HOME\n"] else []
  let st2 := if st1.joy_start ≠ st1.arduino_start_last
    then { st1 with arduino_start_last := st1.joy_start } else st1
  let c2 := if st1.joy_start ≠ st1.arduino_start_last then ["STOP\n"] else []
  let st3 := if st2.joy_bumper_r ≠ st2.arduino_bumper_r_last
    then { st2 with arduino_bumper_r_last := st2.joy_bumper_r } else st2
  let c3 := if st2.joy_bumper_r ≠ st2.arduino_bumper_r_last
    then ["SAVE " ++ toString st2.arduino_selected_pos ++ "\n"] else []
  let st4 := if st3.joy_bumper_l ≠ st3.arduino_bumper_l_last
    then { st3 with arduino_bumper_l_last := st3.joy_bumper_l } else st3
  let c4 := if st3.joy_bumper_l ≠ st3.arduino_bumper_l_last
    then ["GOTO " ++ toString st3.arduino_selected_pos ++ "\n"] else []
  (st4, c1 ++ c2 ++ c3 ++ c4)

/-- One Key event: apply the level update, then run the dispatch blocks.
No rate-limit or threshold state is consulted anywhere on this path. -/
def keyStep (st : KeyState) (ev : KeyEvent) : KeyState × List String :=
  dispatchDiscrete (applyKeyEvent st ev)

/-! ### Serial supervisor (lines 95, 288-324, 327-355, 357-408)

`enabled` is `ARDUINO_ENABLE_SERIAL`, `connected` is `arduino is not None`,
`consecutive_errors` is the read-thread fault counter.  Serial outcomes that
depend on the outside world are oracle parameters: `reconnectFinds` tells
whether `detect_esp32_port(force_rescan=True)` finds a port *and* the
subsequent `serial.Serial` open succeeds (lines 341-351); `writeFaults` tells
whether a `write` raises. -/

structure SerialState where
  enabled : Bool
  connected : Bool
  consecutive_errors : ℕ
deriving DecidableEq

/-- Lines 327-355.  On entry the handle is closed (`arduino = None`).  If
re-discovery and re-open succeed the handle is restored and `True` returned;
otherwise `ARDUINO_ENABLE_SERIAL` is set to `False` and `False` returned.
The counter is not touched here. -/
def reconnect_serial (st : SerialState) (reconnectFinds : Bool) : SerialState × Bool :=
  if reconnectFinds then ({ st with connected := true }, true)
  else ({ enabled := false, connected := false,
          consecutive_errors := st.consecutive_errors }, false)

inductive ReadEvent where
  | ok
  | fault

structure ReadStepResult where
  st : SerialState
  attempts : ℕ
  exited : Bool

/-- One iteration of the read loop (lines 366-406).  A successful read resets
the counter (line 381).  A fault increments it; at `max_errors = 3` exactly
one reconnect attempt is made — success resets the counter, failure leaves
serial disabled and breaks out of the thread loop. -/
def serial_read_step (st : SerialState) (ev : ReadEvent) (reconnectFinds : Bool) :
    ReadStepResult :=
  match ev with
  | .ok => ⟨{ st with consecutive_errors := 0 }, 0, false⟩
  | .fault =>
    let errs := st.consecutive_errors + 1
    if 3 ≤ errs then
      let res := reconnect_serial { st with consecutive_errors := errs } reconnectFinds
      if res.2 then ⟨{ res.1 with consecutive_errors := 0 }, 1, false⟩
      else ⟨res.1, 1, true⟩
    else ⟨{ st with consecutive_errors := errs }, 0, false⟩

/-- The read thread over a sequence of read outcomes: final state, total
number of reconnect attempts, and whether the loop exited via `break`
(after which remaining events are not processed — the thread is gone but the
process keeps running). -/
def serial_read_thread : SerialState → List ReadEvent → Bool → SerialState × ℕ × Bool
  | st, [], _ => (st, 0, false)
  | st, ev :: rest, rf =>
    let r := serial_read_step st ev rf
    if r.exited then (r.st, r.attempts, true)
    else
      let rr := serial_read_thread r.st rest rf
      (rr.1, r.attempts + rr.2.1, rr.2.2)

/-- Lines 288-299: `send_cmd`.  When serial is enabled and connected it writes
the command (appending a newline if absent); a faulting write triggers one
reconnect attempt.  Otherwise it returns immediately — a no-op, nothing is
raised.  The second component is the bytes written, if any. -/
def send_cmd (st : SerialState) (cmd : String) (writeFaults reconnectFinds : Bool) :
    SerialState × Option String :=
  if st.enabled && st.connected then
    if writeFaults then ((reconnect_serial { st with connected := false } reconnectFinds).1, none)
    else (st, some (if cmd.endsWith "\n" then cmd else cmd ++ "\n"))
  else (st, none)

/-- Lines 301-313: `send_joystick_values`, same guard and fault handling as
`send_cmd`, writing the formatted velocity command. -/
def send_joystick_values (st : SerialState) (yaw pitch zoom : ℤ)
    (writeFaults reconnectFinds : Bool) : SerialState × Option String :=
  if st.enabled && st.connected then
    if writeFaults then ((reconnect_serial { st with connected := false } reconnectFinds).1, none)
    else (st, some (joystick_cmd_string yaw pitch zoom))
  else (st, none)

/-! ### Device locator (lines 130-263)

Real time is abstracted away: a candidate's behaviour within its allotted
slice is its (already stripped) reply line, `none` when the port cannot be
opened, times out, or yields no complete line.  The overall budget and the
per-port slice arithmetic (lines 206-247) only decide *when* probing stops,
which the claims under proof do not touch. -/

/-- Lines 181-186: a reply qualifies iff it starts with `STATUS:PAN:` and
contains `TILT:` and `ZOOM:`.  (Prefix/infix tests are run on the character
lists of the strings.) -/
def validStatusLine (r : String) : Bool :=
  decide ("STATUS:PAN:".toList <+: r.toList) &&
  decide ("TILT:".toList <:+: r.toList) &&
  decide ("ZOOM:".toList <:+: r.toList)

/-- Lines 130-192: probe one port.  `env p` is the reply line the device on
`p` produces for `STATUS\n` within the time slice, if any. -/
def test_port (env : String → Option String) (p : String) : Bool :=
  match env p with
  | none => false
  | some r => validStatusLine r

/-- Result of `detect_esp32_port`: the returned port, the cache contents
afterwards, and the ports probed, in order. -/
structure LocateResult where
  found : Option String
  cache : Option String
  probed : List String
deriving DecidableEq

/-- Lines 236-257: scan the enumerated ports in order; the first qualifying
port is saved to the cache and returned. -/
def scanPorts (env : String → Option String) :
    List String → Option String → List String → LocateResult
  | [], cache, probed => ⟨none, cache, probed⟩
  | p :: rest, cache, probed =>
    if test_port env p then ⟨some p, some p, probed ++ [p]⟩
    else scanPorts env rest cache (probed ++ [p])

/-- Lines 194-263.  Unless `force_rescan` is set, a present cached port is
probed first: success returns it immediately (cache kept); failure clears the
cache and falls through to the full scan. -/
def detect_esp32_port (env : String → Option String) (ports : List String)
    (cache : Option String) (force_rescan : Bool) : LocateResult :=
  if force_rescan then scanPorts env ports cache []
  else
    match cache with
    | some cp =>
      if test_port env cp then ⟨some cp, some cp, [cp]⟩
      else scanPorts env ports none [cp]
    | none => scanPorts env ports none []

/-- Concrete probe environment used to instantiate the locator property:
only `COM3` answers with a valid status line. -/
def envW : String → Option String := fun p =>
  if p = "COM3" then some "STATUS:PAN:0 TILT:0 ZOOM:5" else none

/-! ## Theorems -/

/-- C3: for every raw axis sample `r` with `|r| <` the axis deadzone, the
curve stage returns exactly `0`, the smoothing step resets the accumulator to
exactly `0` regardless of its previous value, and hence the conditioned
output (after any sensitivity factor `k`) is exactly `0`. -/
theorem deadzone_gives_zero_output (r max_value d a s_prev k : ℝ)
    (hd : 0 < d) (hr : |r| < d) :
    apply_joystick_curve r max_value d = 0 ∧
    smoothWithReset (apply_joystick_curve r max_value d) s_prev a d = 0 ∧
    smoothWithReset (apply_joystick_curve r max_value d) s_prev a d * k = 0 := by
  have hc : apply_joystick_curve r max_value d = 0 := by
    unfold apply_joystick_curve
    rw [if_pos hr]
  have hs : smoothWithReset (apply_joystick_curve r max_value d) s_prev a d = 0 := by
    unfold smoothWithReset
    rw [hc, if_pos (by simpa using hd)]
  exact ⟨hc, hs, by rw [hs, zero_mul]⟩

theorem deadzone_gives_zero_output_witness :
    ((0:ℝ) < 1000 ∧ |(500:ℝ)| < 1000) ∧
    (apply_joystick_curve 500 32768 1000 = 0 ∧
     smoothWithReset (apply_joystick_curve 500 32768 1000) 777 0.3 1000 = 0 ∧
     smoothWithReset (apply_joystick_curve 500 32768 1000) 777 0.3 1000 * 0.9 = 0) :=
  ⟨⟨by norm_num, by norm_num⟩,
    deadzone_gives_zero_output 500 32768 1000 0.3 777 0.9 (by norm_num) (by norm_num)⟩

/-- C1: starting from any read-thread state with a zero fault counter, three
consecutive transport faults produce exactly one reconnect attempt; when that
attempt fails, serial is disabled (`ARDUINO_ENABLE_SERIAL = False`), the read
thread exits via `break` (further events are not processed, the process keeps
running), and every subsequent send — `send_cmd` or `send_joystick_values` —
is a no-op returning without raising and writing nothing. -/
theorem three_faults_one_reconnect_then_disabled
    (st : SerialState) (h0 : st.consecutive_errors = 0) (rest : List ReadEvent) :
    (serial_read_thread st (.fault :: .fault :: .fault :: rest) false).2.1 = 1 ∧
    (serial_read_thread st (.fault :: .fault :: .fault :: rest) false).1.enabled = false ∧
    (serial_read_thread st (.fault :: .fault :: .fault :: rest) false).1.connected = false ∧
    (serial_read_thread st (.fault :: .fault :: .fault :: rest) false).2.2 = true ∧
    (∀ cmd wf rf,
      send_cmd (serial_read_thread st (.fault :: .fault :: .fault :: rest) false).1 cmd wf rf
        = ((serial_read_thread st (.fault :: .fault :: .fault :: rest) false).1, none)) ∧
    (∀ y p z wf rf,
      send_joystick_values
          (serial_read_thread st (.fault :: .fault :: .fault :: rest) false).1 y p z wf rf
        = ((serial_read_thread st (.fault :: .fault :: .fault :: rest) false).1, none)) := by
  obtain ⟨e, c, n⟩ := st
  simp only [SerialState.mk.injEq] at h0 ⊢
  subst h0
  norm_num [serial_read_thread, serial_read_step, reconnect_serial, send_cmd,
    send_joystick_values]

theorem three_faults_one_reconnect_then_disabled_witness :
    (serial_read_thread ⟨true, true, 0⟩ [.fault, .fault, .fault] false).2.1 = 1 ∧
    (serial_read_thread ⟨true, true, 0⟩ [.fault, .fault, .fault] false).1.enabled = false ∧
    (serial_read_thread ⟨true, true, 0⟩ [.fault, .fault, .fault] false).1.connected = false ∧
    (serial_read_thread ⟨true, true, 0⟩ [.fault, .fault, .fault] false).2.2 = true ∧
    (∀ cmd wf rf,
      send_cmd (serial_read_thread ⟨true, true, 0⟩ [.fault, .fault, .fault] false).1 cmd wf rf
        = ((serial_read_thread ⟨true, true, 0⟩ [.fault, .fault, .fault] false).1, none)) ∧
    (∀ y p z wf rf,
      send_joystick_values
          (serial_read_thread ⟨true, true, 0⟩ [.fault, .fault, .fault] false).1 y p z wf rf
        = ((serial_read_thread ⟨true, true, 0⟩ [.fault, .fault, .fault] false).1, none)) :=
  three_faults_one_reconnect_then_disabled ⟨true, true, 0⟩ rfl []

/-- C2: when, among the enumerated candidates, the first two fail the probe
and the third passes it, `detect_esp32_port` returns the third candidate
after probing exactly the first three in order, and caches it; a subsequent
call with that cache present and `force_rescan = False` probes only the
cached endpoint and returns it, regardless of the candidate list. -/
theorem locator_returns_third_and_caches (env : String → Option String)
    (p1 p2 p3 : String) (rest : List String)
    (h1 : test_port env p1 = false) (h2 : test_port env p2 = false)
    (h3 : test_port env p3 = true) :
    detect_esp32_port env (p1 :: p2 :: p3 :: rest) none false
      = ⟨some p3, some p3, [p1, p2, p3]⟩ ∧
    ∀ ports : List String,
      detect_esp32_port env ports (some p3) false = ⟨some p3, some p3, [p3]⟩ := by
  constructor
  · simp [detect_esp32_port, scanPorts, h1, h2, h3]
  · intro ports
    simp [detect_esp32_port, h3]

theorem locator_returns_third_and_caches_witness :
    (test_port envW "COM1" = false ∧ test_port envW "COM2" = false ∧
      test_port envW "COM3" = true) ∧
    detect_esp32_port envW ["COM1", "COM2", "COM3"] none false
      = ⟨some "COM3", some "COM3", ["COM1", "COM2", "COM3"]⟩ ∧
    ∀ ports : List String,
      detect_esp32_port envW ports (some "COM3") false
        = ⟨some "COM3", some "COM3", ["COM3"]⟩ :=
  ⟨⟨by decide, by decide, by decide⟩,
    locator_returns_third_and_caches envW "COM1" "COM2" "COM3" []
      (by decide) (by decide) (by decide)⟩

/-- Helper: the commands emitted by one pass of the discrete dispatch blocks,
as a function of the pre-dispatch levels. -/
theorem dispatchDiscrete_cmds (s : KeyState) :
    (dispatchDiscrete s).2 =
      (if s.joy_back ≠ s.arduino_back_last then ["HOME\n"] else []) ++
      (if s.joy_start ≠ s.arduino_start_last then ["STOP\n"] else []) ++
      (if s.joy_bumper_r ≠ s.arduino_bumper_r_last
        then ["SAVE " ++ toString s.arduino_selected_pos ++ "\n"] else []) ++
      (if s.joy_bumper_l ≠ s.arduino_bumper_l_last
        then ["GOTO " ++ toString s.arduino_selected_pos ++ "\n"] else []) := by
  unfold dispatchDiscrete
  split_ifs <;> simp_all

/-- C8 counterexample: a press of the back button followed by its release.
The handler compares the level with the last-seen level using `!=`, so the
release (a falling edge: level `0` after last-seen `1`) transmits `HOME`
again — a command is sent on release, not only on press. -/
theorem discrete_command_fires_on_release_cx :
    (keyStep initKeyState (.btnSelect 1)).2 = ["HOME\n"] ∧
    (keyStep (keyStep initKeyState (.btnSelect 1)).1 (.btnSelect 0)).2 = ["HOME\n"] := by
  decide

/-- C8 (amended): each discrete command (HOME, STOP, SAVE n, GOTO n) is
transmitted immediately — the Key path consults no rate-limit or threshold
state — exactly when its control's level differs from the last-seen level,
i.e. on every level change, releases included, not only on presses. -/
theorem discrete_commands_fire_on_level_change (st : KeyState) (ev : KeyEvent) :
    (keyStep st ev).2 =
      (if (applyKeyEvent st ev).joy_back ≠ (applyKeyEvent st ev).arduino_back_last
        then ["HOME\n"] else []) ++
      (if (applyKeyEvent st ev).joy_start ≠ (applyKeyEvent st ev).arduino_start_last
        then ["STOP\n"] else []) ++
      (if (applyKeyEvent st ev).joy_bumper_r ≠ (applyKeyEvent st ev).arduino_bumper_r_last
        then ["SAVE " ++ toString (applyKeyEvent st ev).arduino_selected_pos ++ "\n"] else []) ++
      (if (applyKeyEvent st ev).joy_bumper_l ≠ (applyKeyEvent st ev).arduino_bumper_l_last
        then ["GOTO " ++ toString (applyKeyEvent st ev).arduino_selected_pos ++ "\n"] else []) :=
  dispatchDiscrete_cmds (applyKeyEvent st ev)

/-! ### Numeric helpers for the power-curve computations -/

theorem sqrt_two_gt : (1.41421 : ℝ) < Real.sqrt 2 :=
  (Real.lt_sqrt (by norm_num)).2 (by norm_num)

theorem sqrt_two_lt : Real.sqrt 2 < 1.41422 :=
  (Real.sqrt_lt' (by norm_num)).2 (by norm_num)

theorem half_rpow_half : ((1 : ℝ) / 2) ^ ((1 : ℝ) / 2) = Real.sqrt 2 / 2 := by
  rw [← Real.sqrt_eq_rpow, show (1 : ℝ) / 2 = 2⁻¹ by norm_num, Real.sqrt_inv]
  have hne : Real.sqrt 2 ≠ 0 := by positivity
  field_simp

theorem half_rpow_five_half : ((1 : ℝ) / 2) ^ ((5 : ℝ) / 2) = Real.sqrt 2 / 8 := by
  have h1 : ((1 : ℝ) / 2) ^ ((5 : ℝ) / 2) = (((1 : ℝ) / 2) ^ ((1 : ℝ) / 2)) ^ (5 : ℕ) := by
    rw [← Real.rpow_natCast (((1 : ℝ) / 2) ^ ((1 : ℝ) / 2)) 5,
      ← Real.rpow_mul (by norm_num)]
    norm_num
  have h5 : Real.sqrt 2 ^ (5 : ℕ) = 4 * Real.sqrt 2 := by
    have h := Real.sq_sqrt (show (0 : ℝ) ≤ 2 by norm_num)
    calc Real.sqrt 2 ^ (5 : ℕ) = (Real.sqrt 2 ^ 2) ^ 2 * Real.sqrt 2 := by ring
    _ = 4 * Real.sqrt 2 := by rw [h]; norm_num
  rw [h1, half_rpow_half, div_pow, h5]
  ring

theorem half_rpow_three_half : ((1 : ℝ) / 2) ^ ((3 : ℝ) / 2) = Real.sqrt 2 / 4 := by
  have h1 : ((1 : ℝ) / 2) ^ ((3 : ℝ) / 2) = (((1 : ℝ) / 2) ^ ((1 : ℝ) / 2)) ^ (3 : ℕ) := by
    rw [← Real.rpow_natCast (((1 : ℝ) / 2) ^ ((1 : ℝ) / 2)) 3,
      ← Real.rpow_mul (by norm_num)]
    norm_num
  have h3 : Real.sqrt 2 ^ (3 : ℕ) = 2 * Real.sqrt 2 := by
    have h := Real.sq_sqrt (show (0 : ℝ) ≤ 2 by norm_num)
    calc Real.sqrt 2 ^ (3 : ℕ) = Real.sqrt 2 ^ 2 * Real.sqrt 2 := by ring
    _ = 2 * Real.sqrt 2 := by rw [h]
  rw [h1, half_rpow_half, div_pow, h3]
  ring

/-- The curve stage at the example input `r = 16384` has the exact value
`4096 * √2` (the spec's `≈ 5793`). -/
theorem curve_at_16384 :
    apply_joystick_curve 16384 JOYSTICK_MAX_INT JOYSTICK_DEADZONE_PITCH
      = 4096 * Real.sqrt 2 := by
  unfold apply_joystick_curve JOYSTICK_MAX_INT JOYSTICK_DEADZONE_PITCH JOYSTICK_CURVE_EXPONENT
  rw [if_neg (by rw [abs_of_nonneg (by norm_num : (0:ℝ) ≤ 16384)]; norm_num)]
  rw [if_pos (by norm_num)]
  rw [show |(16384 : ℝ) / 32768| = 1 / 2 by
    rw [abs_of_nonneg (by norm_num : (0:ℝ) ≤ 16384 / 32768)]; norm_num]
  rw [show (2.5 : ℝ) = (5 : ℝ) / 2 by norm_num, half_rpow_five_half]
  ring

/-- C4: with `R = 32768`, `deadzone = 1000`, exponent `2.5` and raw sample
`r = 16384`, the curve stage yields approximately `5793`; smoothing with
`α = 0.3` from a previous smoothed value of `0` yields approximately `1738`;
the axis sensitivity `0.9` then yields a final output of approximately
`1564` (each within `1` of the quoted value). -/
theorem example_pipeline_values :
    |apply_joystick_curve 16384 JOYSTICK_MAX_INT JOYSTICK_DEADZONE_PITCH - 5793| < 1 ∧
    |smoothWithReset (apply_joystick_curve 16384 JOYSTICK_MAX_INT JOYSTICK_DEADZONE_PITCH)
        0 JOYSTICK_SMOOTHING JOYSTICK_DEADZONE_PITCH - 1738| < 1 ∧
    |smoothWithReset (apply_joystick_curve 16384 JOYSTICK_MAX_INT JOYSTICK_DEADZONE_PITCH)
        0 JOYSTICK_SMOOTHING JOYSTICK_DEADZONE_PITCH * JOYSTICK_SCALE_PITCH - 1564| < 1 := by
  have hgt := sqrt_two_gt
  have hlt := sqrt_two_lt
  have hc := curve_at_16384
  have hs : smoothWithReset (apply_joystick_curve 16384 JOYSTICK_MAX_INT JOYSTICK_DEADZONE_PITCH)
      0 JOYSTICK_SMOOTHING JOYSTICK_DEADZONE_PITCH = 0.3 * (4096 * Real.sqrt 2) := by
    rw [hc]
    unfold smoothWithReset JOYSTICK_SMOOTHING JOYSTICK_DEADZONE_PITCH
    rw [if_neg (by
      rw [abs_of_nonneg (by positivity)]
      nlinarith)]
    ring
  refine ⟨?_, ?_, ?_⟩
  · rw [hc, abs_lt]
    constructor <;> nlinarith
  · rw [hs, abs_lt]
    constructor <;> nlinarith
  · rw [hs, abs_lt]
    unfold JOYSTICK_SCALE_PITCH
    constructor <;> nlinarith

/-- C5 counterexample: with the left trigger at rest and the right trigger at
half deflection (`trigger_diff = 1/2`, raw input `16384`), the code's zoom
raw-conditioning (lines 608-614) produces the *linear* value `16384`, while
the pipeline the claim describes — the pan/tilt power curve with the zoom
exponent `1.5` — would produce `8192 * √2 ≈ 11585`.  The zoom axis is not
conditioned by the claimed power-curve pipeline; `JOYSTICK_CURVE_EXPONENT_ZOOM`
is never applied. -/
theorem zoom_is_linear_not_curved_cx :
    joystick_zoom_raw_scaled zoomDemoState = 16384 ∧
    zoomCurveClaimed (trigger_diff zoomDemoState * JOYSTICK_MAX_INT) = 8192 * Real.sqrt 2 ∧
    zoomCurveClaimed (trigger_diff zoomDemoState * JOYSTICK_MAX_INT)
      ≠ joystick_zoom_raw_scaled zoomDemoState := by
  have htd : trigger_diff zoomDemoState = 1 / 2 := by
    unfold trigger_diff zoomDemoState initState
    norm_num
  have h1 : joystick_zoom_raw_scaled zoomDemoState = 16384 := by
    unfold joystick_zoom_raw_scaled JOYSTICK_DEADZONE_ZOOM JOYSTICK_MAX_INT
    rw [htd, if_neg (by rw [abs_of_nonneg (by norm_num)]; norm_num)]
    norm_num
  have h2 : zoomCurveClaimed (trigger_diff zoomDemoState * JOYSTICK_MAX_INT)
      = 8192 * Real.sqrt 2 := by
    rw [htd]
    unfold zoomCurveClaimed JOYSTICK_DEADZONE_ZOOM JOYSTICK_MAX_INT JOYSTICK_CURVE_EXPONENT_ZOOM
    rw [if_neg (by rw [abs_of_nonneg (by norm_num)]; norm_num)]
    rw [if_pos (by norm_num)]
    rw [show |(1:ℝ) / 2 * 32768 / 32768| = 1 / 2 by
      rw [abs_of_nonneg (by norm_num)]; norm_num]
    rw [show (1.5 : ℝ) = (3 : ℝ) / 2 by norm_num, half_rpow_three_half]
    ring
  refine ⟨h1, h2, ?_⟩
  rw [h1, h2]
  have := sqrt_two_lt
  intro h
  nlinarith

/-- C5 (amended): the zoom axis is conditioned by its own deadzone, then
*linear* scaling to the full joystick range — no power curve is applied and
the `1.5` zoom curve exponent goes unused — then exponential smoothing with
the lighter factor `0.6`, with no further sensitivity multiplication. -/
theorem zoom_pipeline_amended (st : LoopState) :
    zoomScaledNext st
      = smoothWithReset (joystick_zoom_raw_scaled st) st.joystick_zoom_smoothed
          zoom_smoothing JOYSTICK_DEADZONE_ZOOM ∧
    (JOYSTICK_DEADZONE_ZOOM / JOYSTICK_MAX_INT ≤ |trigger_diff st| →
      joystick_zoom_raw_scaled st = trigger_diff st * JOYSTICK_MAX_INT) := by
  refine ⟨rfl, fun h => ?_⟩
  unfold joystick_zoom_raw_scaled
  rw [if_neg (not_lt.2 h)]

/-- C7: whenever an axis transitions from outside its deadzone (as recorded
by the last transmitted value) to inside it, the tick transmits a velocity
command regardless of the rate-limiter state (`t` and `last_send_time` are
arbitrary), and the transmitted value for that axis is exactly `0`. -/
theorem deadzone_entry_sends_zero (st : LoopState) (t : ℝ) :
    (yawEntered st → ∃ p z, (loopTick st t).2 = some (0, p, z)) ∧
    (pitchEntered st → ∃ y z, (loopTick st t).2 = some (y, 0, z)) ∧
    (zoomEntered st → ∃ y p, (loopTick st t).2 = some (y, p, 0)) := by
  refine ⟨fun h => ?_, fun h => ?_, fun h => ?_⟩
  · refine ⟨pyInt (sentPitch st), pyInt (sentZoom st), ?_⟩
    unfold loopTick
    rw [if_pos (Or.inr (Or.inl h))]
    simp [sentTriple, sentYaw, if_pos h, pyInt]
  · refine ⟨pyInt (sentYaw st), pyInt (sentZoom st), ?_⟩
    unfold loopTick
    rw [if_pos (Or.inr (Or.inr (Or.inl h)))]
    simp [sentTriple, sentPitch, if_pos h, pyInt]
  · refine ⟨pyInt (sentYaw st), pyInt (sentPitch st), ?_⟩
    unfold loopTick
    rw [if_pos (Or.inr (Or.inr (Or.inr h)))]
    simp [sentTriple, sentZoom, if_pos h, pyInt]

theorem deadzone_entry_sends_zero_witness :
    yawEntered edgeDemoState ∧
    ∃ p z, (loopTick edgeDemoState (100 + 1 / 100)).2 = some (0, p, z) := by
  have h0 : yawScaledNext edgeDemoState = 0 := by
    unfold yawScaledNext yawSmoothedNext joystick_yaw_curved joystick_yaw_raw
      edgeDemoState initState
    norm_num [apply_joystick_curve, smoothWithReset, JOYSTICK_DEADZONE_YAW,
      JOYSTICK_MAX_INT, JOYSTICK_SCALE_YAW]
  have h : yawEntered edgeDemoState := by
    constructor
    · unfold edgeDemoState initState yaw_deadzone_scaled JOYSTICK_DEADZONE_YAW
        JOYSTICK_SCALE_YAW
      rw [abs_of_nonneg (by norm_num)]
      norm_num
    · rw [h0]
      unfold yaw_deadzone_scaled JOYSTICK_DEADZONE_YAW JOYSTICK_SCALE_YAW
      norm_num
  exact ⟨h, (deadzone_entry_sends_zero edgeDemoState (100 + 1 / 100)).1 h⟩

/-! ### The effective zero-output region of the pan/tilt curve -/

theorem effTh_pos : 0 < effectiveZeroThreshold := by
  unfold effectiveZeroThreshold JOYSTICK_MAX_INT JOYSTICK_DEADZONE_YAW JOYSTICK_CURVE_EXPONENT
  positivity

theorem effTh_pow5 : effectiveZeroThreshold ^ (5 : ℕ) = 35184372088832000000 := by
  unfold effectiveZeroThreshold JOYSTICK_MAX_INT JOYSTICK_DEADZONE_YAW JOYSTICK_CURVE_EXPONENT
  rw [mul_pow, show (1 : ℝ) / 2.5 = (2 : ℝ) / 5 by norm_num]
  rw [← Real.rpow_natCast (((1000 : ℝ) / 32768) ^ ((2 : ℝ) / 5)) 5,
    ← Real.rpow_mul (by norm_num)]
  rw [show (2 : ℝ) / 5 * ((5 : ℕ) : ℝ) = (2 : ℝ) by push_cast; norm_num]
  rw [show ((1000 : ℝ) / 32768) ^ (2 : ℝ) = ((1000 : ℝ) / 32768) ^ (2 : ℕ) by
    rw [← Real.rpow_natCast]; norm_num]
  norm_num

theorem effTh_gt_8114 : (8114 : ℝ) < effectiveZeroThreshold := by
  by_contra hle
  push_neg at hle
  have h := pow_le_pow_left₀ effTh_pos.le hle 5
  rw [effTh_pow5] at h
  norm_num at h

theorem effTh_lt_8115 : effectiveZeroThreshold < 8115 := by
  apply lt_of_pow_lt_pow_left₀ 5 (by norm_num : (0 : ℝ) ≤ 8115)
  rw [effTh_pow5]
  norm_num

/-- Helper: a raw sample whose magnitude is at least the deadzone but below
the effective threshold produces a curved value strictly inside the deadzone. -/
theorem curve_small_of_below_threshold (r : ℝ)
    (h1 : (1000 : ℝ) ≤ |r|) (h2 : |r| < effectiveZeroThreshold) :
    |apply_joystick_curve r JOYSTICK_MAX_INT JOYSTICK_DEADZONE_YAW| < 1000 := by
  unfold effectiveZeroThreshold JOYSTICK_MAX_INT JOYSTICK_DEADZONE_YAW
    JOYSTICK_CURVE_EXPONENT at h2
  rw [show (1 : ℝ) / 2.5 = (2 : ℝ) / 5 by norm_num] at h2
  unfold apply_joystick_curve JOYSTICK_MAX_INT JOYSTICK_DEADZONE_YAW JOYSTICK_CURVE_EXPONENT
  rw [if_neg (not_lt.2 h1)]
  have habs : |(if 0 ≤ r / 32768 then (1 : ℝ) else -1) * |r / 32768| ^ (2.5 : ℝ) * 32768|
      = |r / 32768| ^ (2.5 : ℝ) * 32768 := by
    rw [abs_mul, abs_mul, abs_of_nonneg (Real.rpow_nonneg (abs_nonneg _) _),
      abs_of_nonneg (show (0 : ℝ) ≤ 32768 by norm_num)]
    split_ifs <;> simp
  rw [habs]
  have hu : |r / 32768| < ((1000 : ℝ) / 32768) ^ ((2 : ℝ) / 5) := by
    rw [abs_div, abs_of_nonneg (show (0 : ℝ) ≤ 32768 by norm_num),
      div_lt_iff₀ (show (0 : ℝ) < 32768 by norm_num)]
    calc |r| < 32768 * ((1000 : ℝ) / 32768) ^ ((2 : ℝ) / 5) := h2
    _ = ((1000 : ℝ) / 32768) ^ ((2 : ℝ) / 5) * 32768 := by ring
  have hmono := Real.rpow_lt_rpow (abs_nonneg (r / 32768)) hu
    (show (0 : ℝ) < 2.5 by norm_num)
  have hcollapse : (((1000 : ℝ) / 32768) ^ ((2 : ℝ) / 5)) ^ (2.5 : ℝ)
      = (1000 : ℝ) / 32768 := by
    rw [← Real.rpow_mul (by norm_num : (0 : ℝ) ≤ (1000 : ℝ) / 32768),
      show (2 : ℝ) / 5 * (2.5 : ℝ) = 1 by norm_num, Real.rpow_one]
  rw [hcollapse] at hmono
  nlinarith [hmono]

/-- C10: every raw pan/tilt sample `r` with `deadzone ≤ |r|` but
`|r| < R * (d/R)^(1/e)` yields a curved value of magnitude below the deadzone,
so the smoothing step resets the accumulator to `0` and the final conditioned
output is exactly `0`; that threshold lies strictly above the configured
deadzone (between `8114` and `8115` for `d = 1000`, `R = 32768`, `e = 2.5`),
so the effective zero-output region is strictly larger than the deadzone. -/
theorem effective_zero_region_exceeds_deadzone :
    (∀ r : ℝ, JOYSTICK_DEADZONE_YAW ≤ |r| → |r| < effectiveZeroThreshold →
      |apply_joystick_curve r JOYSTICK_MAX_INT JOYSTICK_DEADZONE_YAW| < JOYSTICK_DEADZONE_YAW ∧
      ∀ s_prev a : ℝ,
        smoothWithReset (apply_joystick_curve r JOYSTICK_MAX_INT JOYSTICK_DEADZONE_YAW)
            s_prev a JOYSTICK_DEADZONE_YAW = 0 ∧
          smoothWithReset (apply_joystick_curve r JOYSTICK_MAX_INT JOYSTICK_DEADZONE_YAW)
              s_prev a JOYSTICK_DEADZONE_YAW * JOYSTICK_SCALE_YAW = 0) ∧
    JOYSTICK_DEADZONE_YAW < effectiveZeroThreshold ∧
    (8114 : ℝ) < effectiveZeroThreshold ∧ effectiveZeroThreshold < 8115 := by
  refine ⟨fun r h1 h2 => ?_, ?_, effTh_gt_8114, effTh_lt_8115⟩
  · have hsmall : |apply_joystick_curve r JOYSTICK_MAX_INT JOYSTICK_DEADZONE_YAW| < 1000 :=
      curve_small_of_below_threshold r (by
        unfold JOYSTICK_DEADZONE_YAW at h1; exact h1) h2
    have hdz : |apply_joystick_curve r JOYSTICK_MAX_INT JOYSTICK_DEADZONE_YAW|
        < JOYSTICK_DEADZONE_YAW := by
      unfold JOYSTICK_DEADZONE_YAW
      exact hsmall
    refine ⟨hdz, fun s_prev a => ?_⟩
    have hz : smoothWithReset (apply_joystick_curve r JOYSTICK_MAX_INT JOYSTICK_DEADZONE_YAW)
        s_prev a JOYSTICK_DEADZONE_YAW = 0 := by
      unfold smoothWithReset
      rw [if_pos hdz]
    exact ⟨hz, by rw [hz, zero_mul]⟩
  · unfold JOYSTICK_DEADZONE_YAW
    exact lt_trans (by norm_num) effTh_gt_8114

theorem effective_zero_region_exceeds_deadzone_witness :
    (JOYSTICK_DEADZONE_YAW ≤ |(5000 : ℝ)| ∧ |(5000 : ℝ)| < effectiveZeroThreshold) ∧
    |apply_joystick_curve 5000 JOYSTICK_MAX_INT JOYSTICK_DEADZONE_YAW| < JOYSTICK_DEADZONE_YAW ∧
    smoothWithReset (apply_joystick_curve 5000 JOYSTICK_MAX_INT JOYSTICK_DEADZONE_YAW)
        777 0.3 JOYSTICK_DEADZONE_YAW = 0 ∧
    smoothWithReset (apply_joystick_curve 5000 JOYSTICK_MAX_INT JOYSTICK_DEADZONE_YAW)
        777 0.3 JOYSTICK_DEADZONE_YAW * JOYSTICK_SCALE_YAW = 0 := by
  have ha : JOYSTICK_DEADZONE_YAW ≤ |(5000 : ℝ)| := by
    unfold JOYSTICK_DEADZONE_YAW
    rw [abs_of_nonneg (by norm_num)]
    norm_num
  have hb : |(5000 : ℝ)| < effectiveZeroThreshold := by
    rw [abs_of_nonneg (by norm_num)]
    exact lt_trans (by norm_num) effTh_gt_8114
  have h := (effective_zero_region_exceeds_deadzone).1 5000 ha hb
  exact ⟨⟨ha, hb⟩, h.1, (h.2 777 0.3).1, (h.2 777 0.3).2⟩

theorem zoom_pipeline_amended_witness :
    (JOYSTICK_DEADZONE_ZOOM / JOYSTICK_MAX_INT ≤ |trigger_diff zoomDemoState|) ∧
    joystick_zoom_raw_scaled zoomDemoState = trigger_diff zoomDemoState * JOYSTICK_MAX_INT := by
  have h : JOYSTICK_DEADZONE_ZOOM / JOYSTICK_MAX_INT ≤ |trigger_diff zoomDemoState| := by
    unfold JOYSTICK_DEADZONE_ZOOM JOYSTICK_MAX_INT trigger_diff zoomDemoState initState
    rw [abs_of_nonneg (by norm_num)]
    norm_num
  exact ⟨h, (zoom_pipeline_amended zoomDemoState).2 h⟩

/-! ### Rate limiting of velocity sends -/

theorem applyEvent_last_send_time (st : LoopState) (ev : AbsEvent) :
    (applyEvent st ev).last_send_time = st.last_send_time := by
  cases ev <;> rfl

theorem coastState_last_send_time (st : LoopState) :
    (coastState st).last_send_time = st.last_send_time := rfl

theorem sendState_last_send_time (st : LoopState) (t : ℝ) :
    (sendState st t).last_send_time = t := rfl

/-- Helper: seeded chain invariant — `last_send_time` always records the
previous send's time, so adjacent entries of the send log are either at least
the minimum interval apart or the later one is a deadzone-entry send. -/
theorem runLoop_chain_aux (evs : List (AbsEvent × ℝ)) :
    ∀ (st : LoopState) (x : SendRec), x.time = st.last_send_time →
      List.Chain' (fun a b => b.edge ∨ MIN_SEND_INTERVAL ≤ b.time - a.time)
        (x :: runLoop st evs) := by
  induction evs with
  | nil =>
    intro st x _
    simp [runLoop]
  | cons p rest ih =>
    intro st x hx
    obtain ⟨ev, t⟩ := p
    simp only [runLoop]
    by_cases hs : shouldSend (applyEvent st ev) t
    · rw [if_pos hs]
      refine List.chain'_cons.2 ⟨?_, ?_⟩
      · by_cases he : enteredAny (applyEvent st ev)
        · exact Or.inl he
        · refine Or.inr ?_
          rcases hs with h | h
          · rw [hx, ← applyEvent_last_send_time st ev]
            exact h.1
          · exact absurd h he
      · exact ih (sendState (applyEvent st ev) t)
          ⟨t, enteredAny (applyEvent st ev), sentTriple (applyEvent st ev)⟩ rfl
    · rw [if_neg hs]
      exact ih (coastState (applyEvent st ev)) x
        (by rw [hx, coastState_last_send_time, applyEvent_last_send_time])

/-- C6: for every sequence of input events (each carrying its observed
wall-clock time), adjacent transmitted velocity commands in the send log are
never less than `MIN_SEND_INTERVAL` apart — unless the later send was
triggered by an axis entering its deadzone, which bypasses the rate limiter. -/
theorem sends_respect_min_interval (evs : List (AbsEvent × ℝ)) :
    List.Chain' (fun a b => b.edge ∨ MIN_SEND_INTERVAL ≤ b.time - a.time)
      (runLoop initState evs) :=
  (List.chain'_cons'.1
    (runLoop_chain_aux evs initState ⟨0, False, (0, 0, 0)⟩ rfl)).2

/-! ### Range invariant for the transmitted integers -/

theorem pyInt_bound (x : ℝ) (h : |x| ≤ 32768) :
    -32768 ≤ pyInt x ∧ pyInt x ≤ 32768 := by
  rw [abs_le] at h
  unfold pyInt
  split_ifs with h0
  · constructor
    · have hnn : (0 : ℤ) ≤ ⌊x⌋ := Int.floor_nonneg.2 h0
      omega
    · have hle : (⌊x⌋ : ℝ) ≤ 32768 := le_trans (Int.floor_le x) h.2
      exact_mod_cast hle
  · push_neg at h0
    constructor
    · have hc : (-32768 : ℝ) ≤ (⌈x⌉ : ℝ) := le_trans h.1 (Int.le_ceil x)
      exact_mod_cast hc
    · have hnp : ⌈x⌉ ≤ (0 : ℤ) := Int.ceil_le.2 (by exact_mod_cast h0.le)
      omega

theorem apply_joystick_curve_bound (v M d : ℝ) (hM : 0 < M) (hv : |v| ≤ M) :
    |apply_joystick_curve v M d| ≤ M := by
  unfold apply_joystick_curve
  by_cases h : |v| < d
  · rw [if_pos h]
    simpa using hM.le
  · rw [if_neg h]
    have h1 : |v / M| ≤ 1 := by
      rw [abs_div, abs_of_nonneg hM.le, div_le_one hM]
      exact hv
    have h2 : |v / M| ^ JOYSTICK_CURVE_EXPONENT ≤ 1 :=
      Real.rpow_le_one (abs_nonneg _) h1 (by unfold JOYSTICK_CURVE_EXPONENT; norm_num)
    have h3 : (0 : ℝ) ≤ |v / M| ^ JOYSTICK_CURVE_EXPONENT :=
      Real.rpow_nonneg (abs_nonneg _) _
    have habs : |(if 0 ≤ v / M then (1 : ℝ) else -1) * |v / M| ^ JOYSTICK_CURVE_EXPONENT * M|
        = |v / M| ^ JOYSTICK_CURVE_EXPONENT * M := by
      rw [abs_mul, abs_mul, abs_of_nonneg h3, abs_of_nonneg hM.le]
      have hsign : |if 0 ≤ v / M then (1 : ℝ) else -1| = 1 := by
        split_ifs <;> simp
      rw [hsign, one_mul]
    rw [habs]
    nlinarith

theorem smoothWithReset_bound (c s a d M : ℝ) (hc : |c| ≤ M) (hs : |s| ≤ M)
    (ha0 : 0 ≤ a) (ha1 : a ≤ 1) : |smoothWithReset c s a d| ≤ M := by
  unfold smoothWithReset
  split_ifs with h
  · simpa using le_trans (abs_nonneg c) hc
  · calc |a * c + (1 - a) * s| ≤ |a * c| + |(1 - a) * s| := abs_add _ _
    _ = a * |c| + (1 - a) * |s| := by
        rw [abs_mul, abs_mul, abs_of_nonneg ha0, abs_of_nonneg (by linarith : (0:ℝ) ≤ 1 - a)]
    _ ≤ M := by nlinarith [abs_nonneg c, abs_nonneg s]

theorem updateStick_bound (s : ℤ) (old : ℝ) (hs : |s| ≤ 32768) (hold : |old| ≤ 1) :
    |updateStick s old| ≤ 1 := by
  have hs' : |(s : ℝ)| ≤ 32768 := by
    rw [← Int.cast_abs]
    exact_mod_cast hs
  rw [abs_le] at hs'
  unfold updateStick JOY_DEADZONE JOY_MAX_VALUE
  split_ifs
  · norm_num
  · rw [abs_div, abs_of_nonneg (show (0:ℝ) ≤ 32768 by norm_num), div_le_one (by norm_num)]
    rw [abs_le]
    constructor <;> linarith
  · rw [abs_div, abs_of_nonneg (show (0:ℝ) ≤ 32768 by norm_num), div_le_one (by norm_num)]
    rw [abs_le]
    constructor <;> linarith
  · exact hold

theorem updateTrigger_bound (s : ℤ) (h0 : 0 ≤ s) (h1 : s ≤ 255) :
    0 ≤ updateTrigger s ∧ updateTrigger s ≤ 1 := by
  have hr0 : (0 : ℝ) ≤ (s : ℝ) := by exact_mod_cast h0
  have hr1 : (s : ℝ) ≤ 255 := by exact_mod_cast h1
  unfold updateTrigger
  split_ifs with h
  · norm_num
  · exact ⟨by positivity, by rw [div_le_one (by norm_num)]; linarith⟩

theorem applyEvent_bounded (st : LoopState) (ev : AbsEvent)
    (hst : StateBounded st) (hev : EvBounded ev) : StateBounded (applyEvent st ev) := by
  obtain ⟨h1, h2, h3, h4, h5, h6, h7, h8, h9⟩ := hst
  cases ev with
  | absX s => exact ⟨updateStick_bound s _ hev h1, h2, h3, h4, h5, h6, h7, h8, h9⟩
  | absRY s => exact ⟨h1, updateStick_bound s _ hev h2, h3, h4, h5, h6, h7, h8, h9⟩
  | absZ s =>
    exact ⟨h1, h2, (updateTrigger_bound s hev.1 hev.2).1,
      (updateTrigger_bound s hev.1 hev.2).2, h5, h6, h7, h8, h9⟩
  | absRZ s =>
    exact ⟨h1, h2, h3, h4, (updateTrigger_bound s hev.1 hev.2).1,
      (updateTrigger_bound s hev.1 hev.2).2, h7, h8, h9⟩
  | absOther => exact ⟨h1, h2, h3, h4, h5, h6, h7, h8, h9⟩

theorem yawSmoothedNext_bound (st : LoopState)
    (h1 : |st.joy_x| ≤ 1) (h7 : |st.joystick_yaw_smoothed| ≤ 32768) :
    |yawSmoothedNext st| ≤ 32768 := by
  unfold yawSmoothedNext
  apply smoothWithReset_bound
  · unfold joystick_yaw_curved
    have hb := apply_joystick_curve_bound (joystick_yaw_raw st) JOYSTICK_MAX_INT
      JOYSTICK_DEADZONE_YAW (by unfold JOYSTICK_MAX_INT; norm_num) (by
        unfold joystick_yaw_raw JOYSTICK_MAX_INT
        rw [abs_mul, abs_of_nonneg (show (0:ℝ) ≤ 32768 by norm_num)]
        nlinarith [abs_nonneg st.joy_x])
    unfold JOYSTICK_MAX_INT at hb
    exact hb
  · exact h7
  · unfold JOYSTICK_SMOOTHING; norm_num
  · unfold JOYSTICK_SMOOTHING; norm_num

theorem pitchSmoothedNext_bound (st : LoopState)
    (h2 : |st.joy_ry| ≤ 1) (h8 : |st.joystick_pitch_smoothed| ≤ 32768) :
    |pitchSmoothedNext st| ≤ 32768 := by
  unfold pitchSmoothedNext
  apply smoothWithReset_bound
  · unfold joystick_pitch_curved
    have hb := apply_joystick_curve_bound (joystick_pitch_raw st) JOYSTICK_MAX_INT
      JOYSTICK_DEADZONE_PITCH (by unfold JOYSTICK_MAX_INT; norm_num) (by
        unfold joystick_pitch_raw JOYSTICK_MAX_INT
        rw [abs_mul, abs_of_nonneg (show (0:ℝ) ≤ 32768 by norm_num)]
        nlinarith [abs_nonneg st.joy_ry])
    unfold JOYSTICK_MAX_INT at hb
    exact hb
  · exact h8
  · unfold JOYSTICK_SMOOTHING; norm_num
  · unfold JOYSTICK_SMOOTHING; norm_num

theorem zoomSmoothedNext_bound (st : LoopState)
    (h3 : 0 ≤ st.joy_trigger_l) (h4 : st.joy_trigger_l ≤ 1)
    (h5 : 0 ≤ st.joy_trigger_r) (h6 : st.joy_trigger_r ≤ 1)
    (h9 : |st.joystick_zoom_smoothed| ≤ 32768) :
    |zoomSmoothedNext st| ≤ 32768 := by
  unfold zoomSmoothedNext
  apply smoothWithReset_bound
  · unfold joystick_zoom_raw_scaled trigger_diff JOYSTICK_MAX_INT JOYSTICK_DEADZONE_ZOOM
    split_ifs with h
    · norm_num
    · rw [abs_mul, abs_of_nonneg (show (0:ℝ) ≤ 32768 by norm_num)]
      have habs : |st.joy_trigger_r - st.joy_trigger_l| ≤ 1 := by
        rw [abs_le]
        constructor <;> linarith
      nlinarith [abs_nonneg (st.joy_trigger_r - st.joy_trigger_l)]
  · exact h9
  · unfold zoom_smoothing; norm_num
  · unfold zoom_smoothing; norm_num

theorem sent_bounds (st : LoopState) (h : StateBounded st) :
    |sentYaw st| ≤ 32768 ∧ |sentPitch st| ≤ 32768 ∧ |sentZoom st| ≤ 32768 := by
  obtain ⟨h1, h2, h3, h4, h5, h6, h7, h8, h9⟩ := h
  refine ⟨?_, ?_, ?_⟩
  · unfold sentYaw
    split_ifs with hY
    · norm_num
    · unfold yawScaledNext JOYSTICK_SCALE_YAW
      rw [abs_mul]
      have := yawSmoothedNext_bound st h1 h7
      rw [show |(1.0 : ℝ)| = 1 by norm_num, mul_one]
      exact this
  · unfold sentPitch
    split_ifs with hP
    · norm_num
    · unfold pitchScaledNext JOYSTICK_SCALE_PITCH
      rw [abs_mul]
      have := pitchSmoothedNext_bound st h2 h8
      rw [show |(0.9 : ℝ)| = 0.9 by norm_num]
      nlinarith [abs_nonneg (pitchSmoothedNext st)]
  · unfold sentZoom
    split_ifs with hZ
    · norm_num
    · unfold zoomScaledNext
      exact zoomSmoothedNext_bound st h3 h4 h5 h6 h9

theorem coastState_bounded (st : LoopState) (h : StateBounded st) :
    StateBounded (coastState st) := by
  obtain ⟨h1, h2, h3, h4, h5, h6, h7, h8, h9⟩ := h
  exact ⟨h1, h2, h3, h4, h5, h6, yawSmoothedNext_bound st h1 h7,
    pitchSmoothedNext_bound st h2 h8, zoomSmoothedNext_bound st h3 h4 h5 h6 h9⟩

theorem sendState_bounded (st : LoopState) (t : ℝ) (h : StateBounded st) :
    StateBounded (sendState st t) :=
  coastState_bounded st h

/-- Helper: every command in the send log of a bounded run has all three
integer fields within `[-32768, 32768]`. -/
theorem runLoop_cmds_bounded (evs : List (AbsEvent × ℝ)) :
    ∀ st : LoopState, StateBounded st → (∀ e ∈ evs, EvBounded e.1) →
      ∀ r ∈ runLoop st evs,
        -32768 ≤ r.cmd.1 ∧ r.cmd.1 ≤ 32768 ∧
        -32768 ≤ r.cmd.2.1 ∧ r.cmd.2.1 ≤ 32768 ∧
        -32768 ≤ r.cmd.2.2 ∧ r.cmd.2.2 ≤ 32768 := by
  induction evs with
  | nil =>
    intro st _ _ r hr
    simp [runLoop] at hr
  | cons p rest ih =>
    intro st hst hev r hr
    obtain ⟨ev, t⟩ := p
    have hst1 : StateBounded (applyEvent st ev) :=
      applyEvent_bounded st ev hst (hev _ (List.mem_cons_self _ _))
    have hrest : ∀ e ∈ rest, EvBounded e.1 := fun e he => hev e (List.mem_cons_of_mem _ he)
    simp only [runLoop] at hr
    by_cases hs : shouldSend (applyEvent st ev) t
    · rw [if_pos hs] at hr
      rcases List.mem_cons.1 hr with hEq | hmem
      · subst hEq
        obtain ⟨hy, hp, hz⟩ := sent_bounds (applyEvent st ev) hst1
        exact ⟨(pyInt_bound _ hy).1, (pyInt_bound _ hy).2,
          (pyInt_bound _ hp).1, (pyInt_bound _ hp).2,
          (pyInt_bound _ hz).1, (pyInt_bound _ hz).2⟩
      · exact ih (sendState (applyEvent st ev) t)
          (sendState_bounded (applyEvent st ev) t hst1) hrest r hmem
    · rw [if_neg hs] at hr
      exact ih (coastState (applyEvent st ev))
        (coastState_bounded (applyEvent st ev) hst1) hrest r hr

/-- C9: for every sequence of in-range input events, every velocity command
ever handed to the transport has the form `j,<yaw>,<pitch>,<zoom>\n` with
three signed integers each within `[-32768, 32768]` — the curve stage is
bounded by `R` and the exponential moving average preserves that bound
through every reachable axis-channel state. -/
theorem velocity_commands_wellformed (evs : List (AbsEvent × ℝ))
    (hev : ∀ e ∈ evs, EvBounded e.1) :
    ∀ r ∈ runLoop initState evs,
      ∃ y p z : ℤ,
        joystick_cmd_string r.cmd.1 r.cmd.2.1 r.cmd.2.2
          = "j," ++ toString y ++ "," ++ toString p ++ "," ++ toString z ++ "\n" ∧
        -32768 ≤ y ∧ y ≤ 32768 ∧ -32768 ≤ p ∧ p ≤ 32768 ∧ -32768 ≤ z ∧ z ≤ 32768 := by
  intro r hr
  have hinit : StateBounded initState := by
    unfold StateBounded initState
    norm_num
  obtain ⟨hy1, hy2, hp1, hp2, hz1, hz2⟩ :=
    runLoop_cmds_bounded evs initState hinit hev r hr
  exact ⟨r.cmd.1, r.cmd.2.1, r.cmd.2.2, rfl, hy1, hy2, hp1, hp2, hz1, hz2⟩

theorem velocity_commands_wellformed_witness :
    (∀ e ∈ [(AbsEvent.absX 16384, (1 : ℝ))], EvBounded e.1) ∧
    ∀ r ∈ runLoop initState [(AbsEvent.absX 16384, (1 : ℝ))],
      ∃ y p z : ℤ,
        joystick_cmd_string r.cmd.1 r.cmd.2.1 r.cmd.2.2
          = "j," ++ toString y ++ "," ++ toString p ++ "," ++ toString z ++ "\n" ∧
        -32768 ≤ y ∧ y ≤ 32768 ∧ -32768 ≤ p ∧ p ≤ 32768 ∧ -32768 ≤ z ∧ z ≤ 32768 := by
  have hev : ∀ e ∈ [(AbsEvent.absX 16384, (1 : ℝ))], EvBounded e.1 := by
    intro e he
    simp only [List.mem_singleton] at he
    subst he
    show |(16384 : ℤ)| ≤ 32768
    decide
  exact ⟨hev, velocity_commands_wellformed _ hev⟩

end CameraRig
